import Mathlib

/-!
Verification of the account subsystem: email-verification token lifecycle and
role-based administrative control (toggle active state, change role), embedded
from accounts/views.py, accounts/models.py, accounts/tokens.py and
accounts/forms.py.  Persistent state (users table, token table, sessions) is
passed explicitly; every operation returns its outcome together with the state
after the call, mirroring the fact that Django only persists on save or delete.
-/

namespace AuthApp

/-- Roles of CustomUser (models.py): the ROLE_CHOICES constants. -/
inductive Role where
  | member
  | moderator
  | admin
deriving DecidableEq

/-- A CustomUser row (models.py).  The credential is kept opaque as a plain
string owned by the identity library; id is the primary key. -/
structure Account where
  id : Nat
  username : String
  email : String
  password : String
  is_verified : Bool
  is_active : Bool
  role : Role
  is_staff : Bool
  is_superuser : Bool
deriving DecidableEq

/-- An EmailVerificationToken row (models.py): a unique 128-bit token value
(modelled as Nat) and the owning user primary key (OneToOneField). -/
structure VToken where
  token : Nat
  user : Nat
deriving DecidableEq

/-- The persistent store plus the session list.  nextId and nextToken model
primary-key allocation and the fresh uuid4 draw of the token default. -/
structure SysState where
  accounts : List Account
  tokens : List VToken
  sessions : List Nat
  nextId : Nat
  nextToken : Nat
deriving DecidableEq

/-- Typed outcomes of the operations, per the error taxonomy of the views:
policy rejections, token rejection, login rejections, request-level failures. -/
inductive Err where
  | accessDenied
  | selfTarget
  | invalidRole
  | invalidToken
  | notFound
  | notAuthorized
  | badCredentials
  | unverified
  | inactive
  | formInvalid
  | duplicateEmail
  | duplicateUsername
deriving DecidableEq

/-- Boolean success test for an outcome. -/
def okB {α : Type} : Except Err α → Bool
  | .ok _ => true
  | .error _ => false

/-- Lookup of a user by primary key (CustomUser.objects.get / get_object_or_404). -/
def findAccount (st : SysState) (i : Nat) : Option Account :=
  st.accounts.find? (fun a => a.id == i)

/-- Persisting one account row (user.save): the row with the same primary key
is replaced, everything else is untouched. -/
def updateAccount (st : SysState) (t : Account) : SysState :=
  { st with accounts := st.accounts.map (fun b => if b.id == t.id then t else b) }

/-- views.py is_staff_user: the user_passes_test gate of the admin views. -/
def is_staff_user (u : Account) : Bool :=
  u.is_active && (u.is_staff || u.is_superuser)

/-- Python str.strip() on the role request parameter (ASCII whitespace ends). -/
def stripWs (s : String) : String :=
  String.mk (((s.data.dropWhile Char.isWhitespace).reverse.dropWhile Char.isWhitespace).reverse)

/-- Membership of the stripped role string in valid_roles, returning the role. -/
def roleOfString (s : String) : Option Role :=
  if s == "member" then some .member
  else if s == "moderator" then some .moderator
  else if s == "admin" then some .admin
  else none

/-- views.py toggle_user_active.  The login_required and user_passes_test
decorators are the two leading guards; the body mirrors the source line by
line, and every rejected branch redirects without saving. -/
def toggle_user_active (st : SysState) (actorId pk : Nat) : Except Err Bool × SysState :=
  match findAccount st actorId with
  | none => (.error .notAuthorized, st)
  | some actor =>
    if !(is_staff_user actor) then (.error .notAuthorized, st)
    else match findAccount st pk with
      | none => (.error .notFound, st)
      | some target =>
        if target.id == actor.id then (.error .selfTarget, st)
        else if actor.role == .moderator && !(target.role == .member) then
          (.error .accessDenied, st)
        else if actor.role == .admin && target.role == .admin then
          (.error .accessDenied, st)
        else
          let t := { target with is_active := !target.is_active }
          (.ok t.is_active, updateAccount st t)

/-- views.py change_role.  Note the source checks the actor role before
fetching the target, strips the posted role string, and resynchronizes
is_staff and is_superuser with an if-elif-else chain on the new role. -/
def change_role (st : SysState) (actorId pk : Nat) (roleParam : String) :
    Except Err Role × SysState :=
  match findAccount st actorId with
  | none => (.error .notAuthorized, st)
  | some actor =>
    if !(is_staff_user actor) then (.error .notAuthorized, st)
    else if !(actor.role == .admin) then (.error .accessDenied, st)
    else match findAccount st pk with
      | none => (.error .notFound, st)
      | some target =>
        if target.id == actor.id then (.error .selfTarget, st)
        else if target.role == .admin then (.error .accessDenied, st)
        else
          match roleOfString (stripWs roleParam) with
          | none => (.error .invalidRole, st)
          | some r =>
            let t :=
              if r == Role.admin then
                { target with role := r, is_staff := true, is_superuser := true }
              else if r == Role.moderator then
                { target with role := r, is_staff := true, is_superuser := false }
              else
                { target with role := r, is_staff := false, is_superuser := false }
            (.ok r, updateAccount st t)

/-- Bounded worker for removeAll: structural on the fuel, which removeAll
passes as the list length, an upper bound on the number of steps. -/
def removeAllAux (p : Char) (ps : List Char) : Nat → List Char → List Char
  | _, [] => []
  | 0, l => l
  | fuel + 1, c :: cs =>
    if (p :: ps).isPrefixOf (c :: cs) then removeAllAux p ps fuel (cs.drop ps.length)
    else c :: removeAllAux p ps fuel cs

/-- Removal of every occurrence of the nonempty pattern p :: ps from a
character list, as Python str.replace with an empty replacement does. -/
def removeAll (p : Char) (ps : List Char) (l : List Char) : List Char :=
  removeAllAux p ps l.length l

/-- Python str.strip of curly braces: both ends, any run. -/
def pyStripBraces (cs : List Char) : List Char :=
  ((cs.dropWhile (fun c => c.toNat == 123 || c.toNat == 125)).reverse.dropWhile
    (fun c => c.toNat == 123 || c.toNat == 125)).reverse

/-- Value of one hexadecimal digit, either case. -/
def hexDigit? (c : Char) : Option Nat :=
  if c.toNat >= 48 && c.toNat <= 57 then some (c.toNat - 48)
  else if c.toNat >= 97 && c.toNat <= 102 then some (c.toNat - 87)
  else if c.toNat >= 65 && c.toNat <= 70 then some (c.toNat - 55)
  else none

/-- Big-endian hexadecimal accumulation, failing on a non-digit. -/
def parseHex : List Char → Nat → Option Nat
  | [], acc => some acc
  | c :: cs, acc =>
    match hexDigit? c with
    | none => none
    | some d => parseHex cs (acc * 16 + d)

/-- Modelled from the spec: the uuid string constructor of the external
runtime library, which Django UUIDField applies when filtering by a string
value.  It removes urn: and uuid: markers and hyphens, strips braces, and
accepts exactly 32 hexadecimal digits; anything else raises, which the view
catches and treats as not-found. -/
def parseUuid (s : String) : Option Nat :=
  let cs1 := removeAll 'u' ['r', 'n', ':'] s.data
  let cs2 := removeAll 'u' ['u', 'i', 'd', ':'] cs1
  let cs3 := pyStripBraces cs2
  let cs4 := cs3.filter (fun c => !(c == '-'))
  if cs4.length == 32 then parseHex cs4 0 else none

/-- EmailVerificationToken.objects.filter(token=value).first() wrapped in the
try-except of VerifyEmailView: a string the field cannot convert raises and is
treated as no match. -/
def lookupToken (st : SysState) (tv : String) : Option VToken :=
  match parseUuid tv with
  | none => none
  | some v => st.tokens.find? (fun t => t.token == v)

/-- tokens.py generate_token: delete any token rows of the user, then create
one with a fresh value.  Token values are unique (DB constraint), so deleting
by owner is row deletion. -/
def generate_token (st : SysState) (uid : Nat) : Nat × SysState :=
  let remaining := st.tokens.filter (fun t => !(t.user == uid))
  (st.nextToken,
    { st with tokens := remaining ++ [{ token := st.nextToken, user := uid }],
              nextToken := st.nextToken + 1 })

/-- views.py VerifyEmailView.get: missing or empty token parameter rejects;
unknown or malformed value rejects; a found token marks its owner verified,
saves, and deletes the token row (unique token values, so deletion by value
is deletion of that row). -/
def verify_email (st : SysState) (tokenParam : Option String) : Except Err Nat × SysState :=
  match tokenParam with
  | none => (.error .invalidToken, st)
  | some tv =>
    if tv == "" then (.error .invalidToken, st)
    else
      match lookupToken st tv with
      | none => (.error .invalidToken, st)
      | some tok =>
        match findAccount st tok.user with
        | none => (.error .notFound, st)
        | some u =>
          let st1 := updateAccount st { u with is_verified := true }
          let st2 := { st1 with tokens := st1.tokens.filter (fun t => !(t.token == tok.token)) }
          (.ok u.id, st2)

/-- Modelled from the spec: the external identity library contract of section 6,
authenticate(username, password) returning the account whose credentials match,
else none; the core trusts its result. -/
def authenticate (st : SysState) (username password : String) : Option Account :=
  st.accounts.find? (fun a => a.username == username && a.password == password)

/-- views.py CustomLoginView.post: the form requires both fields, then the
checks run in order credentials, verified, active; only the success branch
creates a session. -/
def login_post (st : SysState) (username password : String) : Except Err Unit × SysState :=
  if username == "" || password == "" then (.error .formInvalid, st)
  else
    match authenticate st username password with
    | none => (.error .badCredentials, st)
    | some u =>
      if !u.is_verified then (.error .unverified, st)
      else if !u.is_active then (.error .inactive, st)
      else (.ok (), { st with sessions := u.id :: st.sessions })

/-- The row form.save(commit=False) builds for a registration: unverified,
active, default role member with clear model defaults for the flags. -/
def regAccount (st : SysState) (username email password : String) : Account :=
  { id := st.nextId, username := username, email := email, password := password,
    is_verified := false, is_active := true, role := .member,
    is_staff := false, is_superuser := false }

/-- views.py RegisterView.post with forms.py RegistrationForm: required
fields, unique email (clean_email) and unique username; on success the fresh
account row is saved and a verification token issued for it. -/
def register_post (st : SysState) (username email password : String) :
    Except Err Nat × SysState :=
  if username == "" || email == "" || password == "" then (.error .formInvalid, st)
  else if st.accounts.any (fun a => a.email == email) then (.error .duplicateEmail, st)
  else if st.accounts.any (fun a => a.username == username) then (.error .duplicateUsername, st)
  else
    let a : Account := regAccount st username email password
    let st1 : SysState := { st with accounts := st.accounts ++ [a], nextId := st.nextId + 1 }
    (.ok a.id, (generate_token st1 a.id).2)

/-- The operations of the core, for statements over operation sequences. -/
inductive Op where
  | register (username email password : String)
  | verify (tokenParam : Option String)
  | login (username password : String)
  | toggle (actorId pk : Nat)
  | changeRole (actorId pk : Nat) (roleParam : String)
  | issue (uid : Nat)
deriving DecidableEq

/-- State effect of one operation. -/
def applyOp (st : SysState) (op : Op) : SysState :=
  match op with
  | .register u e p => (register_post st u e p).2
  | .verify tv => (verify_email st tv).2
  | .login u p => (login_post st u p).2
  | .toggle a pk => (toggle_user_active st a pk).2
  | .changeRole a pk r => (change_role st a pk r).2
  | .issue uid => (generate_token st uid).2

/-- State effect of a sequence of operations. -/
def applyOps (st : SysState) (ops : List Op) : SysState :=
  ops.foldl applyOp st

/-- Section 4.2 rule table for toggle active state, written from the spec
text: self target, then moderator restriction, then admin on admin, then
flip.  Returned with the target record after the call. -/
def toggle_rules (actor target : Account) : Except Err Bool × Account :=
  if target.id == actor.id then (.error .selfTarget, target)
  else if actor.role == .moderator && !(target.role == .member) then (.error .accessDenied, target)
  else if actor.role == .admin && target.role == .admin then (.error .accessDenied, target)
  else (.ok (!target.is_active), { target with is_active := !target.is_active })

/-- Section 4.2 rule table for change role, written from the spec text with
the requested role taken verbatim: non-admin actor, self target, admin target,
requested role not in the set, then assignment with flag resynchronization. -/
def change_role_rules (actor target : Account) (requested_role : String) :
    Except Err Role × Account :=
  if !(actor.role == .admin) then (.error .accessDenied, target)
  else if target.id == actor.id then (.error .selfTarget, target)
  else if target.role == .admin then (.error .accessDenied, target)
  else
    match roleOfString requested_role with
    | none => (.error .invalidRole, target)
    | some r =>
      (.ok r,
        { target with
            role := r
            is_staff := r == Role.admin || r == Role.moderator
            is_superuser := r == Role.admin })

/-- The role and flag consistency invariant of section 3, as a boolean test:
the two flags are exactly the ones derived from the role. -/
def flagsOkB (a : Account) : Bool :=
  (a.is_staff == (a.role == Role.admin || a.role == Role.moderator)) &&
    (a.is_superuser == (a.role == Role.admin))

/-- Verification status of the account with the given primary key; false when
no such account exists. -/
def accountVerified (st : SysState) (i : Nat) : Bool :=
  match findAccount st i with
  | some a => a.is_verified
  | none => false

deriving instance DecidableEq for Except

/-- Replacing the row with the key of t leaves every primary key in place. -/
lemma replace_keeps_id (b t : Account) : (if b.id == t.id then t else b).id = b.id := by
  cases h : b.id == t.id
  · simp [h]
  · simp [h]
    exact (eq_of_beq h).symm

/-- Lookup after a row replacement is the lookup before, with the found row
replaced when it carries the replaced key. -/
lemma findAccount_updateAccount (st : SysState) (t : Account) (i : Nat) :
    findAccount (updateAccount st t) i
      = (findAccount st i).map (fun b => if b.id == t.id then t else b) := by
  unfold findAccount updateAccount
  rw [List.find?_map]
  have hpf : ((fun a : Account => a.id == i) ∘ fun b => if b.id == t.id then t else b)
      = (fun a : Account => a.id == i) := by
    funext b
    show ((if b.id == t.id then t else b).id == i) = (b.id == i)
    rw [replace_keeps_id]
  rw [hpf]

/-- A found account carries the key it was looked up by. -/
lemma findAccount_id {st : SysState} {i : Nat} {a : Account}
    (h : findAccount st i = some a) : a.id = i := by
  unfold findAccount at h
  have hp := List.find?_some h
  simp at hp
  exact hp

/-- A found account is a row of the store. -/
lemma findAccount_mem {st : SysState} {i : Nat} {a : Account}
    (h : findAccount st i = some a) : a ∈ st.accounts := by
  unfold findAccount at h
  exact List.mem_of_find?_eq_some h

/-- Every row after a replacement is the new row or an old row. -/
lemma mem_updateAccount {st : SysState} {t a : Account}
    (h : a ∈ (updateAccount st t).accounts) : a = t ∨ a ∈ st.accounts := by
  unfold updateAccount at h
  simp only [List.mem_map] at h
  obtain ⟨b, hb, hba⟩ := h
  cases hc : b.id == t.id
  · right
    rw [hc] at hba
    simp at hba
    exact hba ▸ hb
  · left
    rw [hc] at hba
    simp at hba
    exact hba.symm


/-- A verified account stays verified under a row replacement whose new row is
verified whenever it carries that key. -/
lemma accountVerified_updateAccount {st : SysState} {t : Account} {i : Nat}
    (hv : accountVerified st i = true) (ht : t.id = i → t.is_verified = true) :
    accountVerified (updateAccount st t) i = true := by
  unfold accountVerified at hv ⊢
  rw [findAccount_updateAccount]
  cases hf : findAccount st i with
  | none => rw [hf] at hv; simp at hv
  | some a =>
    rw [hf] at hv
    simp only [Option.map_some']
    cases hc : a.id == t.id
    · simpa [hc] using hv
    · simp only [hc, if_true]
      exact ht (by rw [← (eq_of_beq hc)]; exact findAccount_id hf)

/-- A row replacement that turns an unverified key verified must have written
a verified row at that key. -/
lemma accountVerified_updateAccount_rev {st : SysState} {t : Account} {i : Nat}
    (hf : accountVerified st i = false)
    (ht : accountVerified (updateAccount st t) i = true) :
    t.id = i ∧ t.is_verified = true := by
  unfold accountVerified at hf ht
  rw [findAccount_updateAccount] at ht
  cases hfa : findAccount st i with
  | none => rw [hfa] at ht; simp at ht
  | some a =>
    rw [hfa] at hf ht
    simp only [Option.map_some'] at ht
    simp at hf
    cases hc : a.id == t.id
    · rw [hc] at ht; simp at ht; simp [ht] at hf
    · rw [hc] at ht
      simp at ht
      exact ⟨(eq_of_beq hc) ▸ findAccount_id hfa, ht⟩

/-- Searching for a token value in a list filtered against that value finds
nothing. -/
lemma find?_filter_not_token (l : List VToken) (v : Nat) :
    (l.filter (fun t => !(t.token == v))).find? (fun t => t.token == v) = none := by
  rw [List.find?_eq_none]
  intro x hx
  have hm := (List.mem_filter.mp hx).2
  simp at hm
  simp [hm]

/-- A search that succeeds on the first list succeeds on the concatenation. -/
lemma find?_append_some {α : Type} {l₁ l₂ : List α} {p : α → Bool} {a : α}
    (h : l₁.find? p = some a) : (l₁ ++ l₂).find? p = some a := by
  rw [List.find?_append, h]
  rfl

/-- Concrete store used by the witnesses: an admin, a member owning the one
live token, and a moderator, all verified and active with consistent flags. -/
def rootA : Account :=
  { id := 1, username := "root", email := "r@x", password := "pw1",
    is_verified := true, is_active := true, role := .admin,
    is_staff := true, is_superuser := true }

/-- Member account of the witness store. -/
def bobA : Account :=
  { id := 2, username := "bob", email := "b@x", password := "pw2",
    is_verified := true, is_active := true, role := .member,
    is_staff := false, is_superuser := false }

/-- Moderator account of the witness store. -/
def moA : Account :=
  { id := 3, username := "mo", email := "m@x", password := "pw3",
    is_verified := true, is_active := true, role := .moderator,
    is_staff := true, is_superuser := false }

/-- Witness store with consistent flags throughout. -/
def stFix : SysState :=
  { accounts := [rootA, bobA, moA], tokens := [{ token := 5, user := 2 }],
    sessions := [], nextId := 4, nextToken := 6 }

/-- Account whose flags drifted from its role: a member carrying is_staff,
as the admin site or the backfill window can produce. -/
def oddA : Account :=
  { id := 4, username := "odd", email := "o@x", password := "pw4",
    is_verified := true, is_active := true, role := .member,
    is_staff := true, is_superuser := false }

/-- Witness store containing the drifted member-role staff account. -/
def stOdd : SysState :=
  { accounts := [rootA, bobA, moA, oddA], tokens := [], sessions := [],
    nextId := 5, nextToken := 6 }

/-- C2: for every staff, active actor and every found target, toggle active
state returns exactly what the section 4.2 rule table prescribes with its
rules evaluated in order (self target, moderator restriction, admin on admin,
flip), and commits the flipped target exactly on success, mutating nothing on
rejection. -/
theorem toggle_matches_rule_table :
    ∀ (st : SysState) (aid pk : Nat) (actor target : Account),
      findAccount st aid = some actor →
      findAccount st pk = some target →
      is_staff_user actor = true →
      toggle_user_active st aid pk =
        ((toggle_rules actor target).1,
          if okB (toggle_rules actor target).1 = true
          then updateAccount st (toggle_rules actor target).2 else st) := by
  intro st aid pk actor target h1 h2 hs
  cases hself : target.id == actor.id <;>
    cases hmod : actor.role == Role.moderator && !(target.role == Role.member) <;>
      cases hadm : actor.role == Role.admin && target.role == Role.admin <;>
        simp [toggle_user_active, toggle_rules, h1, h2, hs, hself, hmod, hadm, okB]

/-- C2 witness: the moderator of the fixture acting on the member follows the
rule table. -/
theorem toggle_rule_table_witness :
    toggle_user_active stFix 3 2 =
      ((toggle_rules moA bobA).1,
        if okB (toggle_rules moA bobA).1 = true
        then updateAccount stFix (toggle_rules moA bobA).2 else stFix) :=
  toggle_matches_rule_table stFix 3 2 moA bobA (by decide) (by decide) (by decide)

/-- C1 counterexample: the claim as stated fails on the code.  With the staff,
active admin actor of the fixture and the member target, the requested role
string is none of member, moderator, admin, so the claim demands InvalidRole;
the code strips it, succeeds, and mutates the target. -/
theorem change_role_accepts_unstripped_role :
    is_staff_user rootA = true
    ∧ findAccount stFix 1 = some rootA
    ∧ findAccount stFix 2 = some bobA
    ∧ rootA.role = Role.admin
    ∧ ¬(bobA.role = Role.admin)
    ∧ ¬(" admin" = "member") ∧ ¬(" admin" = "moderator") ∧ ¬(" admin" = "admin")
    ∧ (change_role stFix 1 2 " admin").1 = .ok Role.admin
    ∧ ¬((change_role stFix 1 2 " admin").1 = .error Err.invalidRole)
    ∧ ¬((change_role stFix 1 2 " admin").2 = stFix) := by
  decide

/-- C1 as amended: the requested role is first stripped of surrounding
whitespace; with that, for every staff, active actor and every found target,
change role returns exactly what the rule table prescribes with its rules
evaluated in order (non-admin actor, self target, admin target, invalid role,
assignment with flag resynchronization), committing exactly on success. -/
theorem change_role_matches_stripped_rule_table :
    ∀ (st : SysState) (aid pk : Nat) (rp : String) (actor target : Account),
      findAccount st aid = some actor →
      findAccount st pk = some target →
      is_staff_user actor = true →
      change_role st aid pk rp =
        ((change_role_rules actor target (stripWs rp)).1,
          if okB (change_role_rules actor target (stripWs rp)).1 = true
          then updateAccount st (change_role_rules actor target (stripWs rp)).2
          else st) := by
  intro st aid pk rp actor target h1 h2 hs
  cases hadm : actor.role == Role.admin
  · simp [change_role, change_role_rules, h1, h2, hs, hadm, okB]
  · cases hself : target.id == actor.id
    · cases htadm : target.role == Role.admin
      · cases hrs : roleOfString (stripWs rp) with
        | none =>
          simp [change_role, change_role_rules, h1, h2, hs, hadm, hself, htadm, hrs, okB]
        | some r =>
          cases r <;>
            simp [change_role, change_role_rules, h1, h2, hs, hadm, hself, htadm, hrs, okB] <;>
              rfl
      · simp [change_role, change_role_rules, h1, h2, hs, hadm, hself, htadm, okB]
    · simp [change_role, change_role_rules, h1, h2, hs, hadm, hself, okB]

/-- C1 witness: the fixture admin assigning a padded moderator role string to
the member follows the stripped rule table. -/
theorem change_role_stripped_rule_table_witness :
    change_role stFix 1 2 " moderator " =
      ((change_role_rules rootA bobA (stripWs " moderator ")).1,
        if okB (change_role_rules rootA bobA (stripWs " moderator ")).1 = true
        then updateAccount stFix (change_role_rules rootA bobA (stripWs " moderator ")).2
        else stFix) :=
  change_role_matches_stripped_rule_table stFix 1 2 " moderator " rootA bobA
    (by decide) (by decide) (by decide)

/-- C10: an actor whose role is member but who passes the staff-and-active
gate is subject to neither the moderator rule nor the admin rule of toggle
active state: on any found non-self target, whatever its role, the call
succeeds and flips the target. -/
theorem member_role_staff_actor_unrestricted :
    ∀ (st : SysState) (aid pk : Nat) (actor target : Account),
      findAccount st aid = some actor →
      findAccount st pk = some target →
      is_staff_user actor = true →
      actor.role = Role.member →
      ¬(target.id = actor.id) →
      toggle_user_active st aid pk
        = (.ok (!target.is_active),
            updateAccount st { target with is_active := !target.is_active }) := by
  intro st aid pk actor target h1 h2 hs hrole hne
  have hbe : (target.id == actor.id) = false := by
    simp
    omega
  simp [toggle_user_active, h1, h2, hs, hrole, hbe]

/-- C10 witness: the drifted member-role staff account flips the admin
account of the fixture. -/
theorem member_role_staff_witness :
    toggle_user_active stOdd 4 1
      = (.ok (!rootA.is_active),
          updateAccount stOdd { rootA with is_active := !rootA.is_active }) :=
  member_role_staff_actor_unrestricted stOdd 4 1 oddA rootA
    (by decide) (by decide) (by decide) (by decide) (by decide)

/-- The token lookup reads only the token table. -/
lemma findAccount_set_tokens (st : SysState) (tk : List VToken) (i : Nat) :
    findAccount { st with tokens := tk } i = findAccount st i := rfl

/-- C4: for every input string, malformed or well formed, if no live token
matches it then consume rejects with InvalidToken and the whole store,
accounts included, is unchanged; totality of the definition is the absence of
a crash. -/
theorem consume_unknown_is_safe :
    ∀ (st : SysState) (tv : String),
      (∀ tok ∈ st.tokens, ¬(parseUuid tv = some tok.token)) →
      verify_email st (some tv) = (.error .invalidToken, st) := by
  intro st tv h
  have hlk : lookupToken st tv = none := by
    unfold lookupToken
    cases hp : parseUuid tv with
    | none => rfl
    | some v =>
      show st.tokens.find? (fun t => t.token == v) = none
      rw [List.find?_eq_none]
      intro x hx hbx
      exact h x hx (by rw [hp, eq_of_beq hbx])
  cases he : tv == ""
  · simp [verify_email, he, hlk]
  · simp [verify_email, he]

/-- C4 witness: a malformed token value against the fixture store. -/
theorem consume_unknown_safe_witness :
    verify_email stFix (some "not-a-uuid") = (.error .invalidToken, stFix) :=
  consume_unknown_is_safe stFix "not-a-uuid" (by decide)

/-- C3: consuming a live token succeeds returning its owner, marks the owner
verified, deletes the token, and a second consume of the same value rejects
with InvalidToken and changes nothing: tokens are single use. -/
theorem consume_is_single_use :
    ∀ (st : SysState) (tv : String) (tok : VToken) (a : Account),
      lookupToken st tv = some tok →
      findAccount st tok.user = some a →
      (verify_email st (some tv)).1 = .ok a.id
      ∧ findAccount (verify_email st (some tv)).2 a.id
          = some { a with is_verified := true }
      ∧ lookupToken (verify_email st (some tv)).2 tv = none
      ∧ verify_email (verify_email st (some tv)).2 (some tv)
          = (.error .invalidToken, (verify_email st (some tv)).2) := by
  intro st tv tok a hlk hfa
  have hlk2 := hlk
  unfold lookupToken at hlk2
  have hp : parseUuid tv = some tok.token := by
    cases hp0 : parseUuid tv with
    | none => rw [hp0] at hlk2; simp at hlk2
    | some v =>
      rw [hp0] at hlk2
      have hbv := List.find?_some hlk2
      simp at hbv
      rw [hbv]
  have hne : (tv == "") = false := by
    cases he : tv == ""
    · rfl
    · exfalso
      have hempty : tv = "" := eq_of_beq he
      rw [hempty] at hp
      have : parseUuid "" = none := by decide
      rw [this] at hp
      exact Option.noConfusion hp
  have hstep : verify_email st (some tv)
      = (.ok a.id,
          { updateAccount st { a with is_verified := true } with
              tokens := st.tokens.filter (fun t => !(t.token == tok.token)) }) := by
    simp only [verify_email, hne, hlk, hfa]
    rfl
  have haid : a.id = tok.user := findAccount_id hfa
  have h2 : findAccount (verify_email st (some tv)).2 a.id
      = some { a with is_verified := true } := by
    rw [hstep, findAccount_set_tokens, findAccount_updateAccount, haid, hfa]
    simp [haid]
  have h3 : lookupToken (verify_email st (some tv)).2 tv = none := by
    rw [hstep]
    unfold lookupToken
    rw [hp]
    exact find?_filter_not_token st.tokens tok.token
  refine ⟨by rw [hstep], h2, h3, ?_⟩
  set St2 := (verify_email st (some tv)).2 with hSt
  simp only [verify_email, hne, Bool.false_eq_true, if_false, h3]

/-- C3 witness: the fixture token of the member, presented as its canonical
hexadecimal rendering, verifies the member once and only once. -/
theorem consume_single_use_witness :
    (verify_email stFix (some "00000000000000000000000000000005")).1 = .ok bobA.id
    ∧ lookupToken (verify_email stFix (some "00000000000000000000000000000005")).2
        "00000000000000000000000000000005" = none :=
  ⟨(consume_is_single_use stFix "00000000000000000000000000000005"
      { token := 5, user := 2 } bobA (by decide) (by decide)).1,
   (consume_is_single_use stFix "00000000000000000000000000000005"
      { token := 5, user := 2 } bobA (by decide) (by decide)).2.2.1⟩

/-- Replacement on reissue, at the level of the token table filters. -/
lemma generate_token_filters (st : SysState) (uid : Nat) :
    (generate_token st uid).2.tokens.filter (fun t => t.user == uid)
        = [{ token := (generate_token st uid).1, user := uid }]
    ∧ (generate_token st uid).2.tokens.filter (fun t => !(t.user == uid))
        = st.tokens.filter (fun t => !(t.user == uid)) := by
  constructor
  · simp [generate_token, List.filter_append, List.filter_filter]
  · simp [generate_token, List.filter_append, List.filter_filter]

/-- C5: issue deletes every token of the account and creates a fresh one, so
exactly the new token is live for the account afterwards, other accounts are
untouched, the new value is fresh, and a second issue leaves exactly the
token of the second call. -/
theorem issue_replaces_previous_token :
    ∀ (st : SysState) (uid : Nat),
      (generate_token st uid).2.tokens.filter (fun t => t.user == uid)
          = [{ token := (generate_token st uid).1, user := uid }]
      ∧ (generate_token st uid).2.tokens.filter (fun t => !(t.user == uid))
          = st.tokens.filter (fun t => !(t.user == uid))
      ∧ ((∀ t ∈ st.tokens, t.token < st.nextToken) →
          ¬((generate_token st uid).1 ∈ st.tokens.map VToken.token))
      ∧ (generate_token (generate_token st uid).2 uid).2.tokens.filter
            (fun t => t.user == uid)
          = [{ token := (generate_token (generate_token st uid).2 uid).1,
               user := uid }] := by
  intro st uid
  refine ⟨(generate_token_filters st uid).1, (generate_token_filters st uid).2, ?_,
    (generate_token_filters (generate_token st uid).2 uid).1⟩
  intro hwf hmem
  simp only [generate_token, List.mem_map] at hmem
  obtain ⟨t, ht, htok⟩ := hmem
  have := hwf t ht
  omega

/-- C5 witness: reissuing for the member leaves exactly the fresh token, which
was not live before. -/
theorem issue_replaces_witness :
    (generate_token stFix 2).2.tokens.filter (fun t => t.user == 2)
        = [{ token := (generate_token stFix 2).1, user := 2 }]
    ∧ ¬((generate_token stFix 2).1 ∈ stFix.tokens.map VToken.token) :=
  ⟨(issue_replaces_previous_token stFix 2).1,
   (issue_replaces_previous_token stFix 2).2.2.1 (by decide)⟩

/-- A successful authentication returns a stored account whose credentials
are the submitted ones. -/
lemma authenticate_some {st : SysState} {u p : String} {a : Account}
    (h : authenticate st u p = some a) :
    a ∈ st.accounts ∧ a.username = u ∧ a.password = p := by
  unfold authenticate at h
  have hm := List.mem_of_find?_eq_some h
  have hp := List.find?_some h
  simp at hp
  exact ⟨hm, hp.1, hp.2⟩

/-- C6: with nonempty stored credentials and unique usernames, login creates
a session exactly when the submitted credentials match a stored account that
is verified and active; each single failing condition yields its own error,
and every failure leaves the store, sessions included, unchanged. -/
theorem login_iff_credentials_verified_active :
    ∀ (st : SysState) (u p : String),
      (∀ a ∈ st.accounts, ¬(a.username = "") ∧ ¬(a.password = "")) →
      (st.accounts.map Account.username).Nodup →
      ((okB (login_post st u p).1 = true ↔
          ∃ a ∈ st.accounts, a.username = u ∧ a.password = p
            ∧ a.is_verified = true ∧ a.is_active = true)
        ∧ (¬(u = "") → ¬(p = "") → authenticate st u p = none →
            (login_post st u p).1 = .error .badCredentials)
        ∧ (∀ a, authenticate st u p = some a → a.is_verified = false →
            (login_post st u p).1 = .error .unverified)
        ∧ (∀ a, authenticate st u p = some a → a.is_verified = true →
            a.is_active = false → (login_post st u p).1 = .error .inactive)
        ∧ (okB (login_post st u p).1 = false → (login_post st u p).2 = st)) := by
  intro st u p hw hnod
  refine ⟨⟨?_, ?_⟩, ?_, ?_, ?_, ?_⟩
  · intro hok
    cases hform : (u == "" || p == "")
    · cases hauth : authenticate st u p with
      | none => simp [login_post, hform, hauth, okB] at hok
      | some b =>
        obtain ⟨hbm, hbu, hbp⟩ := authenticate_some hauth
        cases hv : b.is_verified
        · simp [login_post, hform, hauth, hv, okB] at hok
        · cases hact : b.is_active
          · simp [login_post, hform, hauth, hv, hact, okB] at hok
          · exact ⟨b, hbm, hbu, hbp, hv, hact⟩
    · simp [login_post, hform, okB] at hok
  · rintro ⟨a, ha, hau, hap, hv, hact⟩
    have hu : ¬(u = "") := by rw [← hau]; exact (hw a ha).1
    have hp2 : ¬(p = "") := by rw [← hap]; exact (hw a ha).2
    have hform : (u == "" || p == "") = false := by simp [hu, hp2]
    have hsome : (st.accounts.find? (fun x => x.username == u && x.password == p)).isSome := by
      rw [List.find?_isSome]
      exact ⟨a, ha, by simp [hau, hap]⟩
    obtain ⟨b, hb⟩ := Option.isSome_iff_exists.mp hsome
    have hbA : authenticate st u p = some b := hb
    obtain ⟨hbm, hbu, hbp⟩ := authenticate_some hbA
    have hab : a = b :=
      List.inj_on_of_nodup_map hnod ha hbm (by rw [hau, hbu])
    simp [login_post, hform, hbA, ← hab, hv, hact, okB]
  · intro hu hp2 hnone
    have hform : (u == "" || p == "") = false := by simp [hu, hp2]
    simp [login_post, hform, hnone]
  · intro a hsome hv
    obtain ⟨ham, hau, hap⟩ := authenticate_some hsome
    have hu : ¬(u = "") := by rw [← hau]; exact (hw a ham).1
    have hp2 : ¬(p = "") := by rw [← hap]; exact (hw a ham).2
    have hform : (u == "" || p == "") = false := by simp [hu, hp2]
    simp [login_post, hform, hsome, hv]
  · intro a hsome hv hact
    obtain ⟨ham, hau, hap⟩ := authenticate_some hsome
    have hu : ¬(u = "") := by rw [← hau]; exact (hw a ham).1
    have hp2 : ¬(p = "") := by rw [← hap]; exact (hw a ham).2
    have hform : (u == "" || p == "") = false := by simp [hu, hp2]
    simp [login_post, hform, hsome, hv, hact]
  · intro hfail
    cases hform : (u == "" || p == "")
    · cases hauth : authenticate st u p with
      | none => simp [login_post, hform, hauth]
      | some b =>
        cases hv : b.is_verified
        · simp [login_post, hform, hauth, hv]
        · cases hact : b.is_active
          · simp [login_post, hform, hauth, hv, hact]
          · simp [login_post, hform, hauth, hv, hact, okB] at hfail
    · simp [login_post, hform]

/-- C6 witness: the verified, active member of the fixture logs in with its
credentials and is rejected with bad credentials on a wrong password. -/
theorem login_iff_witness :
    okB (login_post stFix "bob" "pw2").1 = true
    ∧ (login_post stFix "bob" "wrong").1 = .error .badCredentials :=
  ⟨(login_iff_credentials_verified_active stFix "bob" "pw2"
      (by decide) (by decide)).1.mpr (by decide),
   (login_iff_credentials_verified_active stFix "bob" "wrong"
      (by decide) (by decide)).2.1 (by decide) (by decide) (by decide)⟩

/-- C8: each of toggle active state, change role and consume either succeeds
or returns the store exactly as it was: no account attribute and no token
changes on any rejection, and a success commits its one account write as a
single replacement inside the returned store. -/
theorem rejected_operations_leave_state_unchanged :
    ∀ (st : SysState) (aid pk : Nat) (rp : String) (tv : Option String),
      (okB (toggle_user_active st aid pk).1 = true
        ∨ (toggle_user_active st aid pk).2 = st)
      ∧ (okB (change_role st aid pk rp).1 = true
        ∨ (change_role st aid pk rp).2 = st)
      ∧ (okB (verify_email st tv).1 = true ∨ (verify_email st tv).2 = st) := by
  intro st aid pk rp tv
  refine ⟨?_, ?_, ?_⟩
  · unfold toggle_user_active
    repeat' split
    all_goals simp [okB]
  · unfold change_role
    repeat' split
    all_goals simp [okB]
  · unfold verify_email
    repeat' split
    all_goals simp [okB]

/-- The token reissue never touches the accounts table. -/
lemma generate_token_accounts (st : SysState) (uid : Nat) :
    (generate_token st uid).2.accounts = st.accounts := rfl

/-- Replacing one consistent row in a consistent store keeps it consistent. -/
lemma flagsOk_update {st : SysState} {t : Account}
    (h : ∀ a ∈ st.accounts, flagsOkB a = true) (htf : flagsOkB t = true) :
    ∀ a ∈ (updateAccount st t).accounts, flagsOkB a = true := by
  intro a ha
  rcases mem_updateAccount ha with rfl | hmem
  · exact htf
  · exact h a hmem

/-- C7: every operation of the core preserves the role and flag consistency
invariant on every stored account, and the promotion scenario holds: a staff,
active admin changing a member target to moderator leaves the target with
role moderator, is_staff true, is_superuser false. -/
theorem role_flags_consistency :
    (∀ (op : Op) (st : SysState),
        (∀ a ∈ st.accounts, flagsOkB a = true) →
        ∀ a ∈ (applyOp st op).accounts, flagsOkB a = true)
    ∧ (∀ (st : SysState) (aid pk : Nat) (actor target : Account),
        findAccount st aid = some actor →
        findAccount st pk = some target →
        is_staff_user actor = true →
        actor.role = Role.admin →
        target.role = Role.member →
        ¬(target.id = actor.id) →
        (change_role st aid pk "moderator").1 = .ok Role.moderator
        ∧ findAccount (change_role st aid pk "moderator").2 pk
            = some
                { target with
                    role := Role.moderator
                    is_staff := true
                    is_superuser := false }) := by
  constructor
  · intro op st h
    cases op with
    | register u e p2 =>
      show ∀ a ∈ (register_post st u e p2).2.accounts, flagsOkB a = true
      cases hform : (u == "" || e == "" || p2 == "")
      · cases hdup1 : st.accounts.any (fun a => a.email == e)
        · cases hdup2 : st.accounts.any (fun a => a.username == u)
          · intro a ha
            simp only [register_post, hform, hdup1, hdup2, Bool.false_eq_true,
              if_false, generate_token_accounts] at ha
            rcases List.mem_append.mp ha with hmem | hnew
            · exact h a hmem
            · simp at hnew
              rw [hnew]
              rfl
          · simpa [register_post, hform, hdup1, hdup2] using h
        · simpa [register_post, hform, hdup1] using h
      · simpa [register_post, hform] using h
    | verify tv =>
      show ∀ a ∈ (verify_email st tv).2.accounts, flagsOkB a = true
      cases tv with
      | none => exact h
      | some s =>
        cases he : s == ""
        · cases hlk : lookupToken st s with
          | none => simpa [verify_email, he, hlk] using h
          | some tok =>
            cases hfa : findAccount st tok.user with
            | none => simpa [verify_email, he, hlk, hfa] using h
            | some u2 =>
              have hu2 : flagsOkB u2 = true := h u2 (findAccount_mem hfa)
              intro a ha
              simp only [verify_email, he, hlk, hfa, Bool.false_eq_true,
                if_false] at ha
              refine flagsOk_update h ?_ a ha
              exact hu2
        · simpa [verify_email, he] using h
    | login u2 p2 =>
      show ∀ a ∈ (login_post st u2 p2).2.accounts, flagsOkB a = true
      cases hform : (u2 == "" || p2 == "")
      · cases hauth : authenticate st u2 p2 with
        | none => simpa [login_post, hform, hauth] using h
        | some b =>
          cases hv : b.is_verified
          · simpa [login_post, hform, hauth, hv] using h
          · cases hact : b.is_active
            · simpa [login_post, hform, hauth, hv, hact] using h
            · simpa [login_post, hform, hauth, hv, hact] using h
      · simpa [login_post, hform] using h
    | toggle aid pk =>
      show ∀ a ∈ (toggle_user_active st aid pk).2.accounts, flagsOkB a = true
      cases h1 : findAccount st aid with
      | none => simpa [toggle_user_active, h1] using h
      | some actor =>
        cases hs : is_staff_user actor
        · simpa [toggle_user_active, h1, hs] using h
        · cases h2 : findAccount st pk with
          | none => simpa [toggle_user_active, h1, hs, h2] using h
          | some target =>
            have htf : flagsOkB target = true := h target (findAccount_mem h2)
            cases hself : target.id == actor.id
            · cases hmod : actor.role == Role.moderator && !(target.role == Role.member)
              · cases hadm : actor.role == Role.admin && target.role == Role.admin
                · intro a ha
                  simp only [toggle_user_active, h1, hs, h2, hself, hmod, hadm,
                    Bool.false_eq_true, Bool.not_true, if_false] at ha
                  refine flagsOk_update h ?_ a ha
                  exact htf
                · simpa [toggle_user_active, h1, hs, h2, hself, hmod, hadm] using h
              · simpa [toggle_user_active, h1, hs, h2, hself, hmod] using h
            · simpa [toggle_user_active, h1, hs, h2, hself] using h
    | changeRole aid pk rp =>
      show ∀ a ∈ (change_role st aid pk rp).2.accounts, flagsOkB a = true
      cases h1 : findAccount st aid with
      | none => simpa [change_role, h1] using h
      | some actor =>
        cases hs : is_staff_user actor
        · simpa [change_role, h1, hs] using h
        · cases hadm : actor.role == Role.admin
          · simpa [change_role, h1, hs, hadm] using h
          · cases h2 : findAccount st pk with
            | none => simpa [change_role, h1, hs, hadm, h2] using h
            | some target =>
              cases hself : target.id == actor.id
              · cases htadm : target.role == Role.admin
                · cases hro : roleOfString (stripWs rp) with
                  | none =>
                    simpa [change_role, h1, hs, hadm, h2, hself, htadm, hro] using h
                  | some r =>
                    intro a ha
                    cases r <;>
                      simp only [change_role, h1, hs, hadm, h2, hself, htadm, hro,
                        Bool.false_eq_true, Bool.not_true, if_false] at ha <;>
                      exact flagsOk_update h (by rfl) a ha
                · simpa [change_role, h1, hs, hadm, h2, hself, htadm] using h
              · simpa [change_role, h1, hs, hadm, h2, hself] using h
    | issue uid =>
      show ∀ a ∈ (generate_token st uid).2.accounts, flagsOkB a = true
      exact h
  · intro st aid pk actor target h1 h2 hs hadm htm hne
    have hbe : (target.id == actor.id) = false := beq_eq_false_iff_ne.mpr hne
    have hro : roleOfString (stripWs "moderator") = some Role.moderator := by decide
    have hmm1 : (Role.moderator == Role.admin) = false := by decide
    have hmm2 : (Role.moderator == Role.moderator) = true := by decide
    have hstep : change_role st aid pk "moderator"
        = (.ok Role.moderator,
            updateAccount st
              { target with
                  role := Role.moderator
                  is_staff := true
                  is_superuser := false }) := by
      simp [change_role, h1, h2, hs, hadm, hbe, htm, hro, hmm1, hmm2]
    constructor
    · rw [hstep]
    · rw [hstep, findAccount_updateAccount]
      have hpk : target.id = pk := findAccount_id h2
      rw [h2]
      simp

/-- C7 witness: after the fixture admin deactivates the member, the member
row keeps consistent flags, and promoting the member to moderator yields the
scenario flags. -/
theorem role_flags_witness :
    flagsOkB { bobA with is_active := false } = true
    ∧ findAccount (change_role stFix 1 2 "moderator").2 2
        = some
            { bobA with
                role := Role.moderator
                is_staff := true
                is_superuser := false } :=
  ⟨role_flags_consistency.1 (Op.toggle 1 2) stFix (by decide)
      { bobA with is_active := false } (by decide),
   (role_flags_consistency.2 stFix 1 2 rootA bobA (by decide) (by decide)
      (by decide) (by decide) (by decide) (by decide)).2⟩

/-- Login never touches the accounts table, whatever its outcome. -/
lemma login_post_accounts (st : SysState) (u p : String) :
    (login_post st u p).2.accounts = st.accounts := by
  unfold login_post
  repeat' split
  all_goals rfl

/-- Verification status only reads the accounts table. -/
lemma accountVerified_congr {st2 st3 : SysState} (i : Nat)
    (hacc : st2.accounts = st3.accounts) :
    accountVerified st2 i = accountVerified st3 i := by
  unfold accountVerified findAccount
  rw [hacc]

/-- One step of any core operation keeps a verified account verified. -/
lemma accountVerified_step (op : Op) (st : SysState) (i : Nat)
    (h : accountVerified st i = true) :
    accountVerified (applyOp st op) i = true := by
  cases op with
  | register u e p2 =>
    show accountVerified (register_post st u e p2).2 i = true
    cases hform : (u == "" || e == "" || p2 == "")
    · cases hdup1 : st.accounts.any (fun a => a.email == e)
      · cases hdup2 : st.accounts.any (fun a => a.username == u)
        · have hacc : (register_post st u e p2).2.accounts
              = st.accounts ++ [regAccount st u e p2] := by
            simp [register_post, hform, hdup1, hdup2, generate_token_accounts]
          unfold accountVerified findAccount at h ⊢
          rw [hacc]
          cases hfa : st.accounts.find? (fun a => a.id == i) with
          | none => rw [hfa] at h; simp at h
          | some a =>
            rw [find?_append_some hfa]
            rw [hfa] at h
            exact h
        · have hst : (register_post st u e p2).2 = st := by
            simp [register_post, hform, hdup1, hdup2]
          rw [hst]; exact h
      · have hst : (register_post st u e p2).2 = st := by
          simp [register_post, hform, hdup1]
        rw [hst]; exact h
    · have hst : (register_post st u e p2).2 = st := by
        simp [register_post, hform]
      rw [hst]; exact h
  | verify tv =>
    show accountVerified (verify_email st tv).2 i = true
    cases tv with
    | none => exact h
    | some s =>
      cases he : s == ""
      · cases hlk : lookupToken st s with
        | none =>
          have hst : (verify_email st (some s)).2 = st := by
            simp [verify_email, he, hlk]
          rw [hst]; exact h
        | some tok =>
          cases hfa : findAccount st tok.user with
          | none =>
            have hst : (verify_email st (some s)).2 = st := by
              simp [verify_email, he, hlk, hfa]
            rw [hst]; exact h
          | some u2 =>
            have hacc : (verify_email st (some s)).2.accounts
                = (updateAccount st { u2 with is_verified := true }).accounts := by
              simp [verify_email, he, hlk, hfa]
            rw [accountVerified_congr i hacc]
            exact accountVerified_updateAccount h (fun _ => rfl)
      · have hst : (verify_email st (some s)).2 = st := by
          simp [verify_email, he]
        rw [hst]; exact h
  | login u2 p2 =>
    show accountVerified (login_post st u2 p2).2 i = true
    rw [accountVerified_congr i (login_post_accounts st u2 p2)]
    exact h
  | toggle aid pk =>
    show accountVerified (toggle_user_active st aid pk).2 i = true
    cases h1 : findAccount st aid with
    | none => have hst : (toggle_user_active st aid pk).2 = st := by
                simp [toggle_user_active, h1]
              rw [hst]; exact h
    | some actor =>
      cases hs : is_staff_user actor
      · have hst : (toggle_user_active st aid pk).2 = st := by
          simp [toggle_user_active, h1, hs]
        rw [hst]; exact h
      · cases h2 : findAccount st pk with
        | none => have hst : (toggle_user_active st aid pk).2 = st := by
                    simp [toggle_user_active, h1, hs, h2]
                  rw [hst]; exact h
        | some target =>
          cases hself : target.id == actor.id
          · cases hmod : actor.role == Role.moderator && !(target.role == Role.member)
            · cases hadm : actor.role == Role.admin && target.role == Role.admin
              · have hacc : (toggle_user_active st aid pk).2.accounts
                    = (updateAccount st
                        { target with is_active := !target.is_active }).accounts := by
                  simp [toggle_user_active, h1, hs, h2, hself, hmod, hadm]
                rw [accountVerified_congr i hacc]
                refine accountVerified_updateAccount h ?_
                intro hid
                have htid : target.id = pk := findAccount_id h2
                have hid2 : target.id = i := hid
                have hip : i = pk := by omega
                unfold accountVerified at h
                rw [hip, h2] at h
                simpa using h
              · have hst : (toggle_user_active st aid pk).2 = st := by
                  simp [toggle_user_active, h1, hs, h2, hself, hmod, hadm]
                rw [hst]; exact h
            · have hst : (toggle_user_active st aid pk).2 = st := by
                simp [toggle_user_active, h1, hs, h2, hself, hmod]
              rw [hst]; exact h
          · have hst : (toggle_user_active st aid pk).2 = st := by
              simp [toggle_user_active, h1, hs, h2, hself]
            rw [hst]; exact h
  | changeRole aid pk rp =>
    show accountVerified (change_role st aid pk rp).2 i = true
    cases h1 : findAccount st aid with
    | none => have hst : (change_role st aid pk rp).2 = st := by
                simp [change_role, h1]
              rw [hst]; exact h
    | some actor =>
      cases hs : is_staff_user actor
      · have hst : (change_role st aid pk rp).2 = st := by
          simp [change_role, h1, hs]
        rw [hst]; exact h
      · cases hadm : actor.role == Role.admin
        · have hst : (change_role st aid pk rp).2 = st := by
            simp [change_role, h1, hs, hadm]
          rw [hst]; exact h
        · cases h2 : findAccount st pk with
          | none => have hst : (change_role st aid pk rp).2 = st := by
                      simp [change_role, h1, hs, hadm, h2]
                    rw [hst]; exact h
          | some target =>
            cases hself : target.id == actor.id
            · cases htadm : target.role == Role.admin
              · cases hro : roleOfString (stripWs rp) with
                | none =>
                  have hst : (change_role st aid pk rp).2 = st := by
                    simp [change_role, h1, hs, hadm, h2, hself, htadm, hro]
                  rw [hst]; exact h
                | some r =>
                  have htid : target.id = pk := findAccount_id h2
                  have hkey : ∀ t2 : Account, t2.id = target.id → t2.is_verified = target.is_verified →
                      accountVerified (updateAccount st t2) i = true := by
                    intro t2 ht2id ht2v
                    refine accountVerified_updateAccount h ?_
                    intro hid
                    have hid2 : target.id = i := by rw [← ht2id]; exact hid
                    have hip : i = pk := by omega
                    unfold accountVerified at h
                    rw [hip, h2] at h
                    rw [ht2v]
                    simpa using h
                  cases r with
                  | admin =>
                    have hacc : (change_role st aid pk rp).2.accounts
                        = (updateAccount st
                            { target with
                                role := Role.admin
                                is_staff := true
                                is_superuser := true }).accounts := by
                      simp [change_role, h1, hs, hadm, h2, hself, htadm, hro]
                    rw [accountVerified_congr i hacc]
                    exact hkey _ rfl rfl
                  | moderator =>
                    have hacc : (change_role st aid pk rp).2.accounts
                        = (updateAccount st
                            { target with
                                role := Role.moderator
                                is_staff := true
                                is_superuser := false }).accounts := by
                      simp [change_role, h1, hs, hadm, h2, hself, htadm, hro]
                    rw [accountVerified_congr i hacc]
                    exact hkey _ rfl rfl
                  | member =>
                    have hacc : (change_role st aid pk rp).2.accounts
                        = (updateAccount st
                            { target with
                                role := Role.member
                                is_staff := false
                                is_superuser := false }).accounts := by
                      simp [change_role, h1, hs, hadm, h2, hself, htadm, hro]
                    rw [accountVerified_congr i hacc]
                    exact hkey _ rfl rfl
              · have hst : (change_role st aid pk rp).2 = st := by
                  simp [change_role, h1, hs, hadm, h2, hself, htadm]
                rw [hst]; exact h
            · have hst : (change_role st aid pk rp).2 = st := by
                simp [change_role, h1, hs, hadm, h2, hself]
              rw [hst]; exact h
  | issue uid =>
    show accountVerified (generate_token st uid).2 i = true
    rw [accountVerified_congr i (generate_token_accounts st uid)]
    exact h

/-- A step that turns an unverified account verified can only be a consume
that succeeded. -/
lemma accountVerified_flip (op : Op) (st : SysState) (i : Nat)
    (hf : accountVerified st i = false)
    (ht : accountVerified (applyOp st op) i = true) :
    ∃ tv, op = Op.verify tv ∧ okB (verify_email st tv).1 = true := by
  cases op with
  | register u e p2 =>
    exfalso
    rw [show applyOp st (Op.register u e p2) = (register_post st u e p2).2 from rfl] at ht
    cases hform : (u == "" || e == "" || p2 == "")
    · cases hdup1 : st.accounts.any (fun a => a.email == e)
      · cases hdup2 : st.accounts.any (fun a => a.username == u)
        · have hacc : (register_post st u e p2).2.accounts
              = st.accounts ++ [regAccount st u e p2] := by
            simp [register_post, hform, hdup1, hdup2, generate_token_accounts]
          unfold accountVerified findAccount at hf ht
          rw [hacc, List.find?_append] at ht
          cases hfa : st.accounts.find? (fun a => a.id == i) with
          | some a =>
            rw [hfa] at hf ht
            simp at hf ht
            simp [hf] at ht
          | none =>
            rw [hfa] at ht
            simp only [Option.none_or] at ht
            cases hpr : st.nextId == i
            · simp [List.find?, regAccount, hpr] at ht
            · simp [List.find?, regAccount, hpr] at ht
        · have hst : (register_post st u e p2).2 = st := by
            simp [register_post, hform, hdup1, hdup2]
          rw [hst] at ht
          simp [hf] at ht
      · have hst : (register_post st u e p2).2 = st := by
          simp [register_post, hform, hdup1]
        rw [hst] at ht
        simp [hf] at ht
    · have hst : (register_post st u e p2).2 = st := by
        simp [register_post, hform]
      rw [hst] at ht
      simp [hf] at ht
  | verify tv =>
    refine ⟨tv, rfl, ?_⟩
    rw [show applyOp st (Op.verify tv) = (verify_email st tv).2 from rfl] at ht
    cases tv with
    | none =>
      rw [show (verify_email st none).2 = st from rfl] at ht
      simp [hf] at ht
    | some s =>
      cases he : s == ""
      · cases hlk : lookupToken st s with
        | none =>
          exfalso
          have hst : (verify_email st (some s)).2 = st := by
            simp [verify_email, he, hlk]
          rw [hst] at ht
          simp [hf] at ht
        | some tok =>
          cases hfa : findAccount st tok.user with
          | none =>
            exfalso
            have hst : (verify_email st (some s)).2 = st := by
              simp [verify_email, he, hlk, hfa]
            rw [hst] at ht
            simp [hf] at ht
          | some u2 =>
            simp [verify_email, he, hlk, hfa, okB]
      · exfalso
        have hst : (verify_email st (some s)).2 = st := by
          simp [verify_email, he]
        rw [hst] at ht
        simp [hf] at ht
  | login u2 p2 =>
    exfalso
    rw [show applyOp st (Op.login u2 p2) = (login_post st u2 p2).2 from rfl,
      accountVerified_congr i (login_post_accounts st u2 p2)] at ht
    simp [hf] at ht
  | issue uid =>
    exfalso
    rw [show applyOp st (Op.issue uid) = (generate_token st uid).2 from rfl,
      accountVerified_congr i (generate_token_accounts st uid)] at ht
    simp [hf] at ht
  | toggle aid pk =>
    exfalso
    rw [show applyOp st (Op.toggle aid pk) = (toggle_user_active st aid pk).2 from rfl] at ht
    cases h1 : findAccount st aid with
    | none =>
      have hst : (toggle_user_active st aid pk).2 = st := by
        simp [toggle_user_active, h1]
      rw [hst] at ht; simp [hf] at ht
    | some actor =>
      cases hs : is_staff_user actor
      · have hst : (toggle_user_active st aid pk).2 = st := by
          simp [toggle_user_active, h1, hs]
        rw [hst] at ht; simp [hf] at ht
      · cases h2 : findAccount st pk with
        | none =>
          have hst : (toggle_user_active st aid pk).2 = st := by
            simp [toggle_user_active, h1, hs, h2]
          rw [hst] at ht; simp [hf] at ht
        | some target =>
          cases hself : target.id == actor.id
          · cases hmod : actor.role == Role.moderator && !(target.role == Role.member)
            · cases hadm : actor.role == Role.admin && target.role == Role.admin
              · have hacc : (toggle_user_active st aid pk).2.accounts
                    = (updateAccount st
                        { target with is_active := !target.is_active }).accounts := by
                  simp [toggle_user_active, h1, hs, h2, hself, hmod, hadm]
                rw [accountVerified_congr i hacc] at ht
                obtain ⟨hid, hver⟩ := accountVerified_updateAccount_rev hf ht
                have htid : target.id = pk := findAccount_id h2
                have hid2 : target.id = i := hid
                have hip : i = pk := by omega
                unfold accountVerified at hf
                rw [hip, h2] at hf
                simp at hf
                have hver2 : target.is_verified = true := hver
                simp [hver2] at hf
              · have hst : (toggle_user_active st aid pk).2 = st := by
                  simp [toggle_user_active, h1, hs, h2, hself, hmod, hadm]
                rw [hst] at ht; simp [hf] at ht
            · have hst : (toggle_user_active st aid pk).2 = st := by
                simp [toggle_user_active, h1, hs, h2, hself, hmod]
              rw [hst] at ht; simp [hf] at ht
          · have hst : (toggle_user_active st aid pk).2 = st := by
              simp [toggle_user_active, h1, hs, h2, hself]
            rw [hst] at ht; simp [hf] at ht
  | changeRole aid pk rp =>
    exfalso
    rw [show applyOp st (Op.changeRole aid pk rp) = (change_role st aid pk rp).2 from rfl] at ht
    cases h1 : findAccount st aid with
    | none =>
      have hst : (change_role st aid pk rp).2 = st := by
        simp [change_role, h1]
      rw [hst] at ht; simp [hf] at ht
    | some actor =>
      cases hs : is_staff_user actor
      · have hst : (change_role st aid pk rp).2 = st := by
          simp [change_role, h1, hs]
        rw [hst] at ht; simp [hf] at ht
      · cases hadm : actor.role == Role.admin
        · have hst : (change_role st aid pk rp).2 = st := by
            simp [change_role, h1, hs, hadm]
          rw [hst] at ht; simp [hf] at ht
        · cases h2 : findAccount st pk with
          | none =>
            have hst : (change_role st aid pk rp).2 = st := by
              simp [change_role, h1, hs, hadm, h2]
            rw [hst] at ht; simp [hf] at ht
          | some target =>
            cases hself : target.id == actor.id
            · cases htadm : target.role == Role.admin
              · cases hro : roleOfString (stripWs rp) with
                | none =>
                  have hst : (change_role st aid pk rp).2 = st := by
                    simp [change_role, h1, hs, hadm, h2, hself, htadm, hro]
                  rw [hst] at ht; simp [hf] at ht
                | some r =>
                  have htid : target.id = pk := findAccount_id h2
                  have hkey : ∀ t2 : Account, t2.id = target.id →
                      t2.is_verified = target.is_verified →
                      accountVerified (updateAccount st t2) i = true → False := by
                    intro t2 ht2id ht2v ht2
                    obtain ⟨hid, hver⟩ := accountVerified_updateAccount_rev hf ht2
                    have hid2 : target.id = i := by rw [← ht2id]; exact hid
                    have hip : i = pk := by omega
                    unfold accountVerified at hf
                    rw [hip, h2] at hf
                    simp at hf
                    rw [ht2v] at hver
                    simp [hver] at hf
                  cases r with
                  | admin =>
                    have hacc : (change_role st aid pk rp).2.accounts
                        = (updateAccount st
                            { target with
                                role := Role.admin
                                is_staff := true
                                is_superuser := true }).accounts := by
                      simp [change_role, h1, hs, hadm, h2, hself, htadm, hro]
                    rw [accountVerified_congr i hacc] at ht
                    refine hkey _ ?_ ?_ ht <;> rfl
                  | moderator =>
                    have hacc : (change_role st aid pk rp).2.accounts
                        = (updateAccount st
                            { target with
                                role := Role.moderator
                                is_staff := true
                                is_superuser := false }).accounts := by
                      simp [change_role, h1, hs, hadm, h2, hself, htadm, hro]
                    rw [accountVerified_congr i hacc] at ht
                    refine hkey _ ?_ ?_ ht <;> rfl
                  | member =>
                    have hacc : (change_role st aid pk rp).2.accounts
                        = (updateAccount st
                            { target with
                                role := Role.member
                                is_staff := false
                                is_superuser := false }).accounts := by
                      simp [change_role, h1, hs, hadm, h2, hself, htadm, hro]
                    rw [accountVerified_congr i hacc] at ht
                    refine hkey _ ?_ ?_ ht <;> rfl
              · have hst : (change_role st aid pk rp).2 = st := by
                  simp [change_role, h1, hs, hadm, h2, hself, htadm]
                rw [hst] at ht; simp [hf] at ht
            · have hst : (change_role st aid pk rp).2 = st := by
                simp [change_role, h1, hs, hadm, h2, hself]
              rw [hst] at ht; simp [hf] at ht

/-- Unverified copy of the member account, for exercising the flip lemma. -/
def bobU : Account := { bobA with is_verified := false }

/-- Witness store in which the member still awaits verification. -/
def stUnv : SysState :=
  { accounts := [rootA, bobU, moA], tokens := [{ token := 5, user := 2 }],
    sessions := [], nextId := 4, nextToken := 6 }

/-- C9: verification is one way.  Over any sequence of core operations a
verified account stays verified, and the only single step that turns an
unverified account verified is a consume that succeeded. -/
theorem verification_one_way :
    (∀ (ops : List Op) (st : SysState) (i : Nat),
        accountVerified st i = true → accountVerified (applyOps st ops) i = true)
    ∧ (∀ (op : Op) (st : SysState) (i : Nat),
        accountVerified st i = false → accountVerified (applyOp st op) i = true →
        ∃ tv, op = Op.verify tv ∧ okB (verify_email st tv).1 = true) := by
  constructor
  · intro ops
    induction ops with
    | nil => intro st i h; simpa [applyOps] using h
    | cons op ops ih =>
      intro st i h
      have h1 := accountVerified_step op st i h
      simpa [applyOps] using ih (applyOp st op) i h1
  · exact accountVerified_flip

/-- C9 witness: the verified admin stays verified across a concrete operation
sequence, and consuming the live token of the unverified member is the step
that verifies it. -/
theorem verification_one_way_witness :
    accountVerified
        (applyOps stFix [Op.toggle 1 2, Op.issue 2, Op.login "bob" "pw2"]) 1 = true
    ∧ ∃ tv, Op.verify (some "00000000000000000000000000000005") = Op.verify tv
        ∧ okB (verify_email stUnv tv).1 = true :=
  ⟨verification_one_way.1 [Op.toggle 1 2, Op.issue 2, Op.login "bob" "pw2"] stFix 1
      (by decide),
   verification_one_way.2 (Op.verify (some "00000000000000000000000000000005")) stUnv 2
      (by decide) (by decide)⟩

end AuthApp
